import Mathlib

/-!
Shallow embedding of the DaxTracker3 trading pipeline
(signal_generator.py, ml_processor.py, sentiment_analyzer.py,
notification_system.py, run_notifier.py, system_monitor.py)
together with theorems settling the specification claims.

Real-valued quantities (signal strengths, class scores, confidence values)
are embedded as rationals; news ids are naturals; local wall-clock times of
day are minutes since midnight; weekdays use Python's convention
0 = Monday .. 6 = Sunday.
-/

namespace DaxTracker

/-- Trading signal direction: the values taken by `overall_signal` in
`technical_analysis` rows and by `signal_type` in `trading_signals` rows. -/
inductive Signal where
  | BUY
  | SELL
  | NEUTRAL
deriving DecidableEq, Repr

/-- Sentiment class label, in the fixed order of
`FinBERTSentimentAnalyzer.labels = ['negative', 'neutral', 'positive']`
(also the insertion order of the `scores` dict in
`SignalGenerator._get_latest_sentiment`). -/
inductive SentLabel where
  | negative
  | neutral
  | positive
deriving DecidableEq, Repr

/-- Embeds `SignalGenerator._map_sentiment_to_signal` (signal_generator.py,
lines 129-144): positive maps to BUY, negative to SELL, anything else to
NEUTRAL. -/
def mapSentimentToSignal : SentLabel → Signal
  | SentLabel.positive => Signal.BUY
  | SentLabel.negative => Signal.SELL
  | SentLabel.neutral => Signal.NEUTRAL

/-- Embeds Python's `max(scores, key=scores.get)` over the insertion-ordered
dict `{'negative': neg, 'neutral': neu, 'positive': pos}` (used in
`SignalGenerator._get_latest_sentiment`, line 108, and in
`FinBERTSentimentAnalyzer.analyze_long_text`, line 145).  Python's `max`
keeps the first item and replaces it only when a later item's key is
strictly greater, so the fold below is literal. -/
def dominantOf (neg neu pos : ℚ) : SentLabel :=
  let best1 : SentLabel × ℚ :=
    if neu > neg then (SentLabel.neutral, neu) else (SentLabel.negative, neg)
  if pos > best1.2 then SentLabel.positive else best1.1

/-- Looks up the score of a label among the three class scores; embeds
`scores[dominant]` (signal_generator.py, line 109). -/
def scoreOf (l : SentLabel) (neg neu pos : ℚ) : ℚ :=
  match l with
  | SentLabel.negative => neg
  | SentLabel.neutral => neu
  | SentLabel.positive => pos

/-- One `sentiment_results` row's three class scores, as read by
`SignalGenerator._get_latest_sentiment`. -/
structure SentRow where
  negative_score : ℚ
  neutral_score : ℚ
  positive_score : ℚ
deriving DecidableEq, Repr

/-- The sentiment aggregate `_get_latest_sentiment` hands to
`generate_signals`: the dominant label of the averaged class scores and its
average score (`confidence`). -/
structure SentAgg where
  dominant : SentLabel
  confidence : ℚ
deriving DecidableEq, Repr

/-- Embeds `SignalGenerator._get_latest_sentiment` (signal_generator.py,
lines 94-124) on the list of fetched rows (at most 5, newest first; the
row count does not matter to the arithmetic): `None` on an empty fetch,
otherwise the averaged class scores, their dominant label and its score. -/
def aggregateSentiment (rows : List SentRow) : Option SentAgg :=
  match rows with
  | [] => none
  | _ =>
    let len : ℚ := (rows.length : ℚ)
    let avgNeg := (rows.map (·.negative_score)).sum / len
    let avgNeu := (rows.map (·.neutral_score)).sum / len
    let avgPos := (rows.map (·.positive_score)).sum / len
    let d := dominantOf avgNeg avgNeu avgPos
    some ⟨d, scoreOf d avgNeg avgNeu avgPos⟩

/-- The fields of the latest `technical_analysis` row that
`SignalGenerator.generate_signals` consumes. -/
structure TechRow where
  close_price : ℚ
  overall_signal : Signal
  signal_strength : ℚ
deriving DecidableEq, Repr

/-- Embeds the fusion if/elif chain of `SignalGenerator.generate_signals`
(signal_generator.py, lines 181-199): combined signal and combined
strength from the technical and sentiment-derived signals and strengths. -/
def fuse (techSignal sentSignal : Signal) (techStrength sentStrength : ℚ) :
    Signal × ℚ :=
  if techSignal = sentSignal ∧ techSignal ≠ Signal.NEUTRAL then
    (techSignal, (techStrength + sentStrength) / 2)
  else if techSignal ≠ Signal.NEUTRAL ∧ sentSignal ≠ Signal.NEUTRAL ∧
      techSignal ≠ sentSignal then
    (Signal.NEUTRAL, max techStrength sentStrength)
  else if techSignal ≠ Signal.NEUTRAL then
    (techSignal, techStrength * (7/10) + sentStrength * (3/10))
  else if sentSignal ≠ Signal.NEUTRAL then
    (sentSignal, sentStrength * (6/10) + techStrength * (4/10))
  else
    (Signal.NEUTRAL, (techStrength + sentStrength) / 2)

/-- The fusion rule exactly as the specification words it (spec §4.2, rules
1-5), for comparison with `fuse`: rule 3 requires that ONLY the technical
signal is non-NEUTRAL and rule 4 that ONLY the sentiment signal is
non-NEUTRAL, where the code's guards test just the first half. -/
def specFuse (techSignal sentSignal : Signal) (techStrength sentStrength : ℚ) :
    Signal × ℚ :=
  if techSignal = sentSignal ∧ techSignal ≠ Signal.NEUTRAL then
    (techSignal, (techStrength + sentStrength) / 2)
  else if techSignal ≠ Signal.NEUTRAL ∧ sentSignal ≠ Signal.NEUTRAL ∧
      techSignal ≠ sentSignal then
    (Signal.NEUTRAL, max techStrength sentStrength)
  else if techSignal ≠ Signal.NEUTRAL ∧ sentSignal = Signal.NEUTRAL then
    (techSignal, 7/10 * techStrength + 3/10 * sentStrength)
  else if sentSignal ≠ Signal.NEUTRAL ∧ techSignal = Signal.NEUTRAL then
    (sentSignal, 6/10 * sentStrength + 4/10 * techStrength)
  else
    (Signal.NEUTRAL, (techStrength + sentStrength) / 2)

/-- Embeds signal_generator.py lines 172-178: the sentiment-derived signal
and strength used by the fusion, with the neutral default
(`NEUTRAL`, 0.5) when no sentiment aggregate is available. -/
def sentInput : Option SentAgg → Signal × ℚ
  | some s => (mapSentimentToSignal s.dominant, s.confidence)
  | none => (Signal.NEUTRAL, 1/2)

/-- A `trading_signals` row as created by `generate_signals` and inserted by
`save_signals` (string metadata such as timestamp and reason omitted). -/
structure TradingSignal where
  symbol : String
  signal_type : Signal
  confidence : ℚ
  close_price : ℚ
  technical_signal : Signal
  sentiment_signal : Signal
deriving DecidableEq, Repr

/-- Embeds the per-symbol body of `SignalGenerator.generate_signals`
(signal_generator.py, lines 158-218): skip the symbol when no technical
row exists, fuse with the sentiment input (or its neutral default), and
produce a signal exactly when the combined strength reaches the
configured threshold. -/
def generateSignalForSymbol (threshold : ℚ) (symbol : String)
    (technical : Option TechRow) (sentiment : Option SentAgg) :
    Option TradingSignal :=
  match technical with
  | none => none
  | some t =>
    let ss := sentInput sentiment
    let c := fuse t.overall_signal ss.1 t.signal_strength ss.2
    if threshold ≤ c.2 then
      some { symbol := symbol
             signal_type := c.1
             confidence := c.2
             close_price := t.close_price
             technical_signal := t.overall_signal
             sentiment_signal := ss.1 }
    else none

/-- Embeds `SignalGenerator.generate_signals` over a list of symbols, with
the store abstracted as per-symbol lookups of the latest technical row and
the sentiment aggregate. -/
def generate_signals (threshold : ℚ) (technical : String → Option TechRow)
    (sentiment : String → Option SentAgg) (symbols : List String) :
    List TradingSignal :=
  symbols.filterMap (fun sym =>
    generateSignalForSymbol threshold sym (technical sym) (sentiment sym))

/-- Embeds `SignalGenerator.save_signals` (signal_generator.py, lines
284-299): every signal in the list is inserted as a new row of
`trading_signals`. -/
def save_signals (db : List TradingSignal) (signals : List TradingSignal) :
    List TradingSignal :=
  db ++ signals

/-- C1: the fusion function computes exactly the five spec cases
(agreement → mean; directional conflict → NEUTRAL with max strength; only
technical directional → 0.7·tech + 0.3·sent; only sentiment directional →
0.6·sent + 0.4·tech; both neutral → mean), and in particular
BUY(0.8)/BUY(0.9) ⇒ BUY 0.85, BUY(0.8)/SELL(0.6) ⇒ NEUTRAL 0.8,
BUY(0.9)/NEUTRAL(0.5) ⇒ BUY 0.78, NEUTRAL(0.5)/SELL(0.75) ⇒ SELL 0.65. -/
theorem fuse_matches_spec :
    (∀ (ts ss : Signal) (t s : ℚ), fuse ts ss t s = specFuse ts ss t s) ∧
    fuse Signal.BUY Signal.BUY (8/10) (9/10) = (Signal.BUY, 85/100) ∧
    fuse Signal.BUY Signal.SELL (8/10) (6/10) = (Signal.NEUTRAL, 8/10) ∧
    fuse Signal.BUY Signal.NEUTRAL (9/10) (5/10) = (Signal.BUY, 78/100) ∧
    fuse Signal.NEUTRAL Signal.SELL (5/10) (75/100) =
      (Signal.SELL, 65/100) := by
  refine ⟨fun ts ss t s => ?_, by simp [fuse, Prod.ext_iff]; norm_num,
    by simp [fuse, Prod.ext_iff]; norm_num,
    by simp [fuse, Prod.ext_iff]; norm_num,
    by simp [fuse, Prod.ext_iff]; norm_num⟩
  cases ts <;> cases ss <;> simp [fuse, specFuse] <;> ring

/-- The combined signal and strength the per-symbol body computes for a
given technical row and optional sentiment aggregate (abbreviation used in
theorem statements; `generateSignalForSymbol` computes exactly this). -/
def combinedFor (t : TechRow) (sOpt : Option SentAgg) : Signal × ℚ :=
  fuse t.overall_signal (sentInput sOpt).1 t.signal_strength (sentInput sOpt).2

/-- C3: a TradingSignal is produced and persisted exactly when the combined
strength reaches the configured confidence threshold; a sub-threshold
result produces no signal, leaves the `trading_signals` table unchanged,
and raises no error (the function is total and returns `none`). -/
theorem signal_gate_threshold (threshold : ℚ) (symbol : String) (t : TechRow)
    (sOpt : Option SentAgg) (db : List TradingSignal) :
    (threshold ≤ (combinedFor t sOpt).2 →
      ∃ sig, generateSignalForSymbol threshold symbol (some t) sOpt = some sig ∧
        sig.signal_type = (combinedFor t sOpt).1 ∧
        sig.confidence = (combinedFor t sOpt).2 ∧
        save_signals db [sig] = db ++ [sig]) ∧
    ((combinedFor t sOpt).2 < threshold →
      generateSignalForSymbol threshold symbol (some t) sOpt = none ∧
      generate_signals threshold (fun _ => some t) (fun _ => sOpt) [symbol] = [] ∧
      save_signals db
        (generate_signals threshold (fun _ => some t) (fun _ => sOpt) [symbol]) =
        db) := by
  constructor
  · intro h
    simp only [combinedFor] at h
    refine ⟨⟨symbol,
      (fuse t.overall_signal (sentInput sOpt).1 t.signal_strength
        (sentInput sOpt).2).1,
      (fuse t.overall_signal (sentInput sOpt).1 t.signal_strength
        (sentInput sOpt).2).2,
      t.close_price, t.overall_signal, (sentInput sOpt).1⟩, ?_, rfl, rfl, rfl⟩
    simp only [generateSignalForSymbol]
    rw [if_pos h]
  · intro h
    have hnot : ¬ threshold ≤ (combinedFor t sOpt).2 := not_le.mpr h
    have hnone : generateSignalForSymbol threshold symbol (some t) sOpt = none := by
      simp only [generateSignalForSymbol, combinedFor] at hnot ⊢
      rw [if_neg hnot]
    refine ⟨hnone, ?_, ?_⟩
    · simp [generate_signals, hnone]
    · simp [generate_signals, hnone, save_signals]

/-- Witness for C3: with threshold 0.7, a BUY(0.8) technical row and a
positive(0.9) sentiment aggregate fuse to strength 0.85 ≥ 0.7 and a signal
is emitted, while a NEUTRAL(0.5)/SELL(0.75) fusion gives 0.65 < 0.7 and no
signal is emitted. -/
theorem signal_gate_threshold_witness :
    (∃ sig, generateSignalForSymbol (7/10) "SAP"
        (some ⟨100, Signal.BUY, 8/10⟩) (some ⟨SentLabel.positive, 9/10⟩) =
        some sig ∧
      sig.signal_type =
        (combinedFor ⟨100, Signal.BUY, 8/10⟩ (some ⟨SentLabel.positive, 9/10⟩)).1 ∧
      sig.confidence =
        (combinedFor ⟨100, Signal.BUY, 8/10⟩ (some ⟨SentLabel.positive, 9/10⟩)).2 ∧
      save_signals [] [sig] = [] ++ [sig]) ∧
    generateSignalForSymbol (7/10) "SAP"
      (some ⟨100, Signal.NEUTRAL, 5/10⟩) (some ⟨SentLabel.negative, 75/100⟩) =
      none := by
  constructor
  · exact (signal_gate_threshold (7/10) "SAP" ⟨100, Signal.BUY, 8/10⟩
      (some ⟨SentLabel.positive, 9/10⟩) []).1
      (by simp [combinedFor, fuse, sentInput, mapSentimentToSignal]; norm_num)
  · exact ((signal_gate_threshold (7/10) "SAP" ⟨100, Signal.NEUTRAL, 5/10⟩
      (some ⟨SentLabel.negative, 75/100⟩) []).2
      (by simp [combinedFor, fuse, sentInput, mapSentimentToSignal]; norm_num)).1

/-- C8: a symbol with no technical-analysis row is skipped (no signal, no
error: the embedding is total and yields no output for it), and a symbol
with a technical row but zero sentiment rows is fused with the neutral
default — sentiment signal NEUTRAL, strength 0.5 — which gives the same
result as an explicit neutral aggregate of confidence 0.5. -/
theorem missing_inputs_degrade :
    (∀ (threshold : ℚ) (symbol : String) (sOpt : Option SentAgg),
      generateSignalForSymbol threshold symbol none sOpt = none) ∧
    (∀ (threshold : ℚ) (sentiment : String → Option SentAgg)
      (symbols : List String),
      generate_signals threshold (fun _ => none) sentiment symbols = []) ∧
    aggregateSentiment [] = none ∧
    sentInput none = (Signal.NEUTRAL, 1/2) ∧
    (∀ (threshold : ℚ) (symbol : String) (t : TechRow),
      generateSignalForSymbol threshold symbol (some t) none =
        generateSignalForSymbol threshold symbol (some t)
          (some ⟨SentLabel.neutral, 1/2⟩)) := by
  refine ⟨fun _ _ _ => rfl, fun threshold sentiment symbols => ?_, rfl, rfl,
    fun threshold symbol t => ?_⟩
  · simp [generate_signals, generateSignalForSymbol]
  · simp [generateSignalForSymbol, sentInput, mapSentimentToSignal]

/-- C10: the dominant sentiment is the first maximal label in the fixed
order negative, neutral, positive — negative whenever its score is
maximal, else neutral whenever its score is at least the positive score,
else positive.  In particular an exact tie between the negative and
positive averages (2/5 each, neutral 1/5 — e.g. averaging the two rows
shown) yields dominant = negative, which maps to a SELL signal. -/
theorem dominant_tie_break :
    (∀ n u p : ℚ, dominantOf n u p =
      if u ≤ n ∧ p ≤ n then SentLabel.negative
      else if p ≤ u then SentLabel.neutral
      else SentLabel.positive) ∧
    dominantOf (2/5) (1/5) (2/5) = SentLabel.negative ∧
    mapSentimentToSignal (dominantOf (2/5) (1/5) (2/5)) = Signal.SELL ∧
    aggregateSentiment [⟨1/2, 1/10, 2/5⟩, ⟨3/10, 3/10, 2/5⟩] =
      some ⟨SentLabel.negative, 2/5⟩ := by
  refine ⟨fun n u p => ?_, by norm_num [dominantOf],
    by norm_num [dominantOf, mapSentimentToSignal],
    by norm_num [aggregateSentiment, dominantOf, scoreOf]⟩
  by_cases h1 : u > n
  · by_cases h2 : p > u
    · have hn : ¬(u ≤ n ∧ p ≤ n) := fun ⟨a, _⟩ => absurd h1 (not_lt.mpr a)
      have hp : ¬ p ≤ u := not_le.mpr h2
      simp [dominantOf, h1, h2, hn, hp]
    · have hn : ¬(u ≤ n ∧ p ≤ n) := fun ⟨a, _⟩ => absurd h1 (not_lt.mpr a)
      have hp : p ≤ u := not_lt.mp h2
      simp [dominantOf, h1, h2, hn, hp]
  · have hun : u ≤ n := not_lt.mp h1
    by_cases h2 : p > n
    · have hn : ¬(u ≤ n ∧ p ≤ n) := fun ⟨_, b⟩ => absurd h2 (not_lt.mpr b)
      have hp : ¬ p ≤ u := not_le.mpr (lt_of_le_of_lt hun h2)
      simp [dominantOf, h1, h2, hn, hp]
    · have hpn : p ≤ n := not_lt.mp h2
      simp [dominantOf, h1, h2, hun, hpn]

/-- The notification configuration `TelegramNotifier._load_config` manages
(notification_system.py, lines 33-62).  Quiet-hour bounds are local times
of day in minutes since midnight; comparing `datetime.time` values of the
form `%H:%M` coincides with comparing those minute counts. -/
structure NotifyConfig where
  quiet_enabled : Bool
  quiet_start : Nat
  quiet_end : Nat
  weekends_enabled : Bool
  collect_for_monday : Bool
deriving DecidableEq, Repr

/-- The notifier's view of `datetime.datetime.now()`: local time of day in
minutes since midnight and the weekday (Python convention: 0 = Monday,
5 = Saturday, 6 = Sunday). -/
structure Clock where
  minutes : Nat
  weekday : Nat
deriving DecidableEq, Repr

/-- Embeds `TelegramNotifier._is_in_quiet_hours` (notification_system.py,
lines 73-86): disabled quiet hours never match; a window with
start > end wraps midnight and matches `now ≥ start or now ≤ end`;
otherwise the code tests `start <= now <= end`. -/
def is_in_quiet_hours (cfg : NotifyConfig) (now : Nat) : Bool :=
  if !cfg.quiet_enabled then false
  else if cfg.quiet_end < cfg.quiet_start then
    decide (cfg.quiet_start ≤ now) || decide (now ≤ cfg.quiet_end)
  else
    decide (cfg.quiet_start ≤ now) && decide (now ≤ cfg.quiet_end)

/-- Embeds `TelegramNotifier._is_weekend` (notification_system.py, lines
88-94): weekday ≥ 5 when weekend handling is enabled. -/
def is_weekend (cfg : NotifyConfig) (weekday : Nat) : Bool :=
  if !cfg.weekends_enabled then false
  else decide (5 ≤ weekday)

/-- Embeds `TelegramNotifier.send_signal` (notification_system.py, lines
127-166) as its returned boolean: `false` during quiet hours, `false` on a
weekend without collect-for-Monday, otherwise the transport outcome
(`true` on success, `false` when `bot.send_message` raises
`TelegramError`). -/
def send_signal (cfg : NotifyConfig) (c : Clock) (transportOk : Bool) : Bool :=
  if is_in_quiet_hours cfg c.minutes then false
  else if is_weekend cfg c.weekday && !cfg.collect_for_monday then false
  else transportOk

/-- Embeds `SignalGenerator.get_unnotified_signals` (signal_generator.py,
lines 307-344) over signal ids, with the `notified` column abstracted as a
boolean state: the rows with `notified = 0`. -/
def get_unnotified_signals (notified : Nat → Bool) (ids : List Nat) :
    List Nat :=
  ids.filter (fun i => !notified i)

/-- Embeds `SignalGenerator.mark_as_notified` (signal_generator.py, lines
346-369): sets the signal's `notified` flag. -/
def mark_as_notified (notified : Nat → Bool) (i : Nat) : Nat → Bool :=
  fun j => if j = i then true else notified j

/-- One iteration of the loop in `send_notifications` (run_notifier.py,
lines 38-40): mark the signal exactly when `send_signal` returned true. -/
def notifyStep (cfg : NotifyConfig) (c : Clock) (transportOk : Nat → Bool)
    (notified : Nat → Bool) (i : Nat) : Nat → Bool :=
  if send_signal cfg c (transportOk i) = true then mark_as_notified notified i
  else notified

/-- Embeds `send_notifications` (run_notifier.py, lines 26-42): fetch the
un-notified signals, then for each one send and — on success — mark as
notified.  `transportOk i` is whether the transport delivers signal `i`'s
message. -/
def send_notifications (cfg : NotifyConfig) (c : Clock)
    (transportOk : Nat → Bool) (notified : Nat → Bool) (ids : List Nat) :
    Nat → Bool :=
  (get_unnotified_signals notified ids).foldl
    (notifyStep cfg c transportOk) notified

/-- A sequence of scheduler invocations of `send_notifications` (the
5-minute schedule of run_notifier.py, lines 87-99), each with its own
clock reading and transport behavior, against the same signal table. -/
def run_invocations (cfg : NotifyConfig) (ids : List Nat)
    (invs : List (Clock × (Nat → Bool))) (notified : Nat → Bool) :
    Nat → Bool :=
  invs.foldl (fun st inv => send_notifications cfg inv.1 inv.2 st ids) notified

/-- Value of the notification fold at one id: the flag is set exactly if it
was set before, or the id was in the processed list and its send
succeeded. -/
theorem foldl_notifyStep_apply (cfg : NotifyConfig) (c : Clock)
    (transportOk : Nat → Bool) (l : List Nat) (st : Nat → Bool) (i : Nat) :
    l.foldl (notifyStep cfg c transportOk) st i =
      (st i || (decide (i ∈ l) && send_signal cfg c (transportOk i))) := by
  induction l generalizing st with
  | nil => simp
  | cons a l ih =>
    rw [List.foldl_cons, ih]
    by_cases hia : i = a
    · subst hia
      cases hs : send_signal cfg c (transportOk i) <;>
        simp [notifyStep, mark_as_notified, hs]
    · have hst : (notifyStep cfg c transportOk st a) i = st i := by
        unfold notifyStep mark_as_notified
        split <;> simp [hia]
      rw [hst]
      simp [List.mem_cons, hia]

/-- C6: a signal's `notified` flag ends up true exactly when it already was
true or its send succeeded in this invocation (so the flag is set only
after the transport reports success); a signal whose send failed or was
suppressed keeps `notified = false` and is fetched again — hence retried —
by the gate's next invocation. -/
theorem notified_only_after_success (cfg : NotifyConfig) (c : Clock)
    (transportOk : Nat → Bool) (notified : Nat → Bool) (ids : List Nat)
    (i : Nat) :
    (send_notifications cfg c transportOk notified ids i = true ↔
      notified i = true ∨
        (i ∈ ids ∧ send_signal cfg c (transportOk i) = true)) ∧
    (notified i = false → send_signal cfg c (transportOk i) = false →
      send_notifications cfg c transportOk notified ids i = false ∧
      (i ∈ ids →
        i ∈ get_unnotified_signals
          (send_notifications cfg c transportOk notified ids) ids)) := by
  constructor
  · rw [send_notifications, foldl_notifyStep_apply]
    simp only [get_unnotified_signals, List.mem_filter, Bool.or_eq_true,
      Bool.and_eq_true, decide_eq_true_eq, Bool.not_eq_true']
    by_cases hst : notified i = true <;> simp [hst]
  · intro h0 hfail
    have hres : send_notifications cfg c transportOk notified ids i = false := by
      rw [send_notifications, foldl_notifyStep_apply, h0, hfail]
      simp
    exact ⟨hres, fun hin => by
      simp [get_unnotified_signals, List.mem_filter, hres, hin]⟩

/-- Witness for C6: with suppression disabled, a failing transport and one
un-notified signal, the flag stays false and the signal is fetched again
by the next invocation. -/
theorem notified_only_after_success_witness :
    send_notifications ⟨false, 0, 0, false, true⟩ ⟨600, 2⟩ (fun _ => false)
      (fun _ => false) [1] 1 = false ∧
    1 ∈ get_unnotified_signals
      (send_notifications ⟨false, 0, 0, false, true⟩ ⟨600, 2⟩ (fun _ => false)
        (fun _ => false) [1]) [1] := by
  have h := (notified_only_after_success ⟨false, 0, 0, false, true⟩ ⟨600, 2⟩
    (fun _ => false) (fun _ => false) [1] 1).2 rfl rfl
  exact ⟨h.1, h.2 (by simp)⟩

/-- On an enabled-weekend day with collect-for-Monday off, `send_signal`
returns false regardless of the transport (notification_system.py, lines
142-147). -/
theorem send_signal_weekend_false (cfg : NotifyConfig) (c : Clock)
    (tr : Bool) (hen : cfg.weekends_enabled = true)
    (hcm : cfg.collect_for_monday = false) (hwd : 5 ≤ c.weekday) :
    send_signal cfg c tr = false := by
  unfold send_signal
  split
  · rfl
  · rw [if_pos]
    simp [is_weekend, hen, hcm, hwd]

/-- C7: under weekend suppression with `collect_for_monday = false`, a
signal whose deliveries are all attempted on Saturdays or Sundays is never
delivered: its `notified` flag is false after every invocation of the
gate, for any sequence of such invocations and any transport behavior. -/
theorem weekend_suppression :
    ∀ (cfg : NotifyConfig) (ids : List Nat)
      (invs : List (Clock × (Nat → Bool))) (notified : Nat → Bool) (i : Nat),
      cfg.weekends_enabled = true → cfg.collect_for_monday = false →
      (∀ inv ∈ invs, 5 ≤ inv.1.weekday) → notified i = false →
      run_invocations cfg ids invs notified i = false := by
  intro cfg ids invs
  induction invs with
  | nil => intro notified i _ _ _ h0; exact h0
  | cons inv invs ih =>
    intro notified i hen hcm hwk h0
    have hstep : send_notifications cfg inv.1 inv.2 notified ids i = false := by
      rw [send_notifications, foldl_notifyStep_apply, h0,
        send_signal_weekend_false cfg inv.1 (inv.2 i) hen hcm
          (hwk inv (List.mem_cons_self _ _))]
      simp
    have hrw : run_invocations cfg ids (inv :: invs) notified =
        run_invocations cfg ids invs
          (send_notifications cfg inv.1 inv.2 notified ids) := rfl
    rw [hrw]
    exact ih (send_notifications cfg inv.1 inv.2 notified ids) i hen hcm
      (fun v hv => hwk v (List.mem_cons_of_mem _ hv)) hstep

/-- Witness for C7: two weekend invocations (Saturday then Sunday) with a
perfectly working transport still leave the signal un-notified. -/
theorem weekend_suppression_witness :
    run_invocations ⟨false, 0, 0, true, false⟩ [1]
      [(⟨600, 5⟩, fun _ => true), (⟨700, 6⟩, fun _ => true)]
      (fun _ => false) 1 = false := by
  exact weekend_suppression ⟨false, 0, 0, true, false⟩ [1]
    [(⟨600, 5⟩, fun _ => true), (⟨700, 6⟩, fun _ => true)] (fun _ => false) 1
    rfl rfl
    (by intro inv hv
        simp only [List.mem_cons, List.mem_singleton] at hv
        rcases hv with rfl | rfl | h
        · norm_num
        · norm_num
        · cases h)
    rfl

/-- Counterexample for C4: the claim says that for a non-wrapping window
(start ≤ end) a time equal to `end` is allowed, but the code tests
`start <= now <= end`, so for the window 08:00–17:30 the time 17:30
(= the window's end, 480 ≤ 1050) is still suppressed. -/
theorem quiet_hours_end_counterexample :
    is_in_quiet_hours ⟨true, 480, 1050, true, true⟩ 1050 = true ∧
    (480 : Nat) ≤ 1050 := by
  exact ⟨rfl, by norm_num⟩

/-- C4 (amended): with quiet hours enabled, a wrapped window (start > end)
suppresses exactly when now ≥ start or now ≤ end, and a non-wrapping
window (start ≤ end) is the CLOSED interval [start, end] — a time equal
to `end` is still suppressed.  Suppression means `send_signal` returns
false.  For the window 22:00–07:30: 23:00 and 06:00 are suppressed, 08:00
and 21:59 are allowed. -/
theorem quiet_hours_window_amended (cfg : NotifyConfig) (now : Nat)
    (hen : cfg.quiet_enabled = true) :
    ((cfg.quiet_end < cfg.quiet_start →
      (is_in_quiet_hours cfg now = true ↔
        cfg.quiet_start ≤ now ∨ now ≤ cfg.quiet_end)) ∧
     (cfg.quiet_start ≤ cfg.quiet_end →
      (is_in_quiet_hours cfg now = true ↔
        cfg.quiet_start ≤ now ∧ now ≤ cfg.quiet_end))) ∧
    (∀ (c : Clock) (tr : Bool), is_in_quiet_hours cfg c.minutes = true →
      send_signal cfg c tr = false) ∧
    (is_in_quiet_hours ⟨true, 1320, 450, true, true⟩ 1380 = true ∧
     is_in_quiet_hours ⟨true, 1320, 450, true, true⟩ 360 = true ∧
     is_in_quiet_hours ⟨true, 1320, 450, true, true⟩ 480 = false ∧
     is_in_quiet_hours ⟨true, 1320, 450, true, true⟩ 1319 = false) := by
  refine ⟨⟨fun hw => ?_, fun hnw => ?_⟩, fun c tr hq => ?_,
    rfl, rfl, rfl, rfl⟩
  · simp [is_in_quiet_hours, hen, hw]
  · have hlt : ¬ cfg.quiet_end < cfg.quiet_start := not_lt.mpr hnw
    simp [is_in_quiet_hours, hen, hlt]
  · unfold send_signal
    rw [if_pos hq]

/-- Witness for C4 (amended): for the wrapped window 22:00–07:30, 23:00 is
inside the window and the corresponding delivery is suppressed. -/
theorem quiet_hours_window_amended_witness :
    is_in_quiet_hours ⟨true, 1320, 450, true, true⟩ 1380 = true ∧
    send_signal ⟨true, 1320, 450, true, true⟩ ⟨1380, 2⟩ true = false := by
  have h := quiet_hours_window_amended ⟨true, 1320, 450, true, true⟩ 1380 rfl
  have hin : is_in_quiet_hours ⟨true, 1320, 450, true, true⟩ 1380 = true :=
    (h.1.1 (by norm_num)).mpr (Or.inl (by norm_num))
  exact ⟨hin, h.2.1 ⟨1380, 2⟩ true hin⟩

/-- The durable processor checkpoint of `InterruptibleMLProcessor`
(ml_processor.py, `processor_checkpoint.json`): the last processed news
id (`last_run` timestamp omitted — it carries no invariant). -/
structure ProcState where
  last_news_id : Nat
deriving DecidableEq, Repr

/-- Embeds `InterruptibleMLProcessor.fetch_unprocessed_news`
(ml_processor.py, lines 85-115): the news rows with
`rowid > last_news_id`, in rowid order (the store keeps `db` in ascending
rowid order; news items are identified here by their rowid). -/
def fetch_unprocessed_news (db : List Nat) (st : ProcState) : List Nat :=
  db.filter (fun i => decide (st.last_news_id < i))

/-- Embeds `FinBERTSentimentAnalyzer.process_news_batch`
(sentiment_analyzer.py, lines 166-208) without a pause request: items are
walked in order; an item with id above the analyzer's
`last_processed_id` is scored, and on success (`scoreOk`) its id joins
the results and becomes the new `last_processed_id`; on classifier
failure the item is skipped and the id is not advanced.  The batch
grouping only controls how often the analyzer's own checkpoint file is
rewritten and does not change the returned results, so it is elided.
Returns (successfully scored ids, final `last_processed_id`). -/
def process_news_batch (scoreOk : Nat → Bool) :
    Nat → List Nat → List Nat × Nat
  | lastId, [] => ([], lastId)
  | lastId, i :: rest =>
    if lastId < i then
      if scoreOk i = true then
        ((process_news_batch scoreOk i rest).1.cons i,
         (process_news_batch scoreOk i rest).2)
      else process_news_batch scoreOk lastId rest
    else process_news_batch scoreOk lastId rest

/-- Embeds `InterruptibleMLProcessor.save_sentiment_results`
(ml_processor.py, lines 117-171): with no results the checkpoint is left
untouched; otherwise `last_news_id` becomes the maximum id among the
saved results (`max(r['id'] for r in results)`), and the checkpoint is
persisted. -/
def save_sentiment_results (st : ProcState) (resultIds : List Nat) :
    ProcState :=
  match resultIds with
  | [] => st
  | i :: rest => { last_news_id := rest.foldl max i }

/-- One iteration of `InterruptibleMLProcessor.process` (ml_processor.py,
lines 182-205): fetch, score, save.  Returns the new processor checkpoint
and the analyzer's new `last_processed_id`. -/
def runOnce (scoreOk : Nat → Bool) (db : List Nat) (st : ProcState)
    (analyzerLast : Nat) : ProcState × Nat :=
  let fetched := fetch_unprocessed_news db st
  let r := process_news_batch scoreOk analyzerLast fetched
  (save_sentiment_results st r.1, r.2)

/-- The processor operations of one process lifetime: a fetch/score/save
cycle, and the pause/resume/terminate transitions, whose handlers flush
the in-memory checkpoint unchanged (ml_processor.py, lines 74-83,
213-228). -/
inductive ProcOp where
  | runBatch (scoreOk : Nat → Bool) (db : List Nat)
  | pauseFlush
  | resume
  | terminateFlush

/-- Effect of one processor operation on (checkpoint, analyzer id). -/
def applyOp (s : ProcState × Nat) : ProcOp → ProcState × Nat
  | ProcOp.runBatch scoreOk db => runOnce scoreOk db s.1 s.2
  | ProcOp.pauseFlush => s
  | ProcOp.resume => s
  | ProcOp.terminateFlush => s

/-- A whole sequence of processor operations within one process
lifetime. -/
def runOps (ops : List ProcOp) (s : ProcState × Nat) : ProcState × Nat :=
  ops.foldl applyOp s

/-- The seed of a fold by `max` is a lower bound of the result. -/
theorem le_foldl_max (l : List Nat) (a : Nat) : a ≤ l.foldl max a := by
  induction l generalizing a with
  | nil => exact le_refl a
  | cons b l ih =>
    rw [List.foldl_cons]
    exact le_trans (le_max_left a b) (ih (max a b))

/-- A fold by `max` is below `j` exactly when the seed and every listed
element are. -/
theorem foldl_max_lt_iff (l : List Nat) (a j : Nat) :
    l.foldl max a < j ↔ a < j ∧ ∀ s ∈ l, s < j := by
  induction l generalizing a with
  | nil => simp
  | cons b l ih =>
    rw [List.foldl_cons, ih, max_lt_iff, List.forall_mem_cons]
    tauto

/-- A fold by `max` returns its seed or a listed element. -/
theorem foldl_max_mem (l : List Nat) (a : Nat) :
    l.foldl max a = a ∨ l.foldl max a ∈ l := by
  induction l generalizing a with
  | nil => exact Or.inl rfl
  | cons b l ih =>
    rw [List.foldl_cons]
    rcases ih (max a b) with h | h
    · rcases max_cases a b with ⟨hm, _⟩ | ⟨hm, _⟩
      · exact Or.inl (by rw [h, hm])
      · exact Or.inr (by rw [h, hm]; exact List.mem_cons_self b l)
    · exact Or.inr (List.mem_cons_of_mem b h)

/-- Every listed element is bounded by a fold by `max`. -/
theorem mem_le_foldl_max (l : List Nat) (a : Nat) :
    ∀ s ∈ l, s ≤ l.foldl max a := by
  induction l generalizing a with
  | nil => intro s hs; cases hs
  | cons b l ih =>
    intro s hs
    rw [List.foldl_cons]
    rcases List.mem_cons.mp hs with rfl | hs
    · exact le_trans (le_max_right a s) (le_foldl_max l (max a s))
    · exact ih (max a b) s hs

/-- The successfully scored ids are among the fetched items. -/
theorem process_batch_subset (scoreOk : Nat → Bool) :
    ∀ (aLast : Nat) (items : List Nat) (x : Nat),
      x ∈ (process_news_batch scoreOk aLast items).1 → x ∈ items := by
  intro aLast items
  induction items generalizing aLast with
  | nil => intro x hx; simp [process_news_batch] at hx
  | cons i rest ih =>
    intro x hx
    simp only [process_news_batch] at hx
    by_cases h1 : aLast < i
    · rw [if_pos h1] at hx
      by_cases h2 : scoreOk i = true
      · rw [if_pos h2] at hx
        rcases List.mem_cons.mp hx with rfl | hx
        · exact List.mem_cons_self _ _
        · exact List.mem_cons_of_mem _ (ih i x hx)
      · rw [if_neg h2] at hx
        exact List.mem_cons_of_mem _ (ih aLast x hx)
    · rw [if_neg h1] at hx
      exact List.mem_cons_of_mem _ (ih aLast x hx)

/-- On a strictly ascending fetch whose ids all exceed the analyzer's
cursor, every item is attempted and the results are exactly the items the
classifier scored successfully. -/
theorem process_batch_filter (scoreOk : Nat → Bool) :
    ∀ (items : List Nat) (aLast : Nat), items.Pairwise (· < ·) →
      (∀ i ∈ items, aLast < i) →
      (process_news_batch scoreOk aLast items).1 = items.filter scoreOk := by
  intro items
  induction items with
  | nil => intro aLast _ _; rfl
  | cons i rest ih =>
    intro aLast hp hgt
    have h1 : aLast < i := hgt i (List.mem_cons_self _ _)
    have hpr : rest.Pairwise (· < ·) := (List.pairwise_cons.mp hp).2
    have hlt : ∀ j ∈ rest, i < j := (List.pairwise_cons.mp hp).1
    simp only [process_news_batch, if_pos h1]
    by_cases h2 : scoreOk i = true
    · rw [if_pos h2, List.filter_cons_of_pos h2]
      simp only [List.cons.injEq, true_and]
      exact ih i hpr hlt
    · rw [if_neg h2, List.filter_cons_of_neg (by simpa using h2)]
      exact ih aLast hpr (fun j hj => hgt j (List.mem_cons_of_mem _ hj))

/-- Saving results whose ids all exceed the checkpoint never lowers it. -/
theorem save_le (st : ProcState) (res : List Nat)
    (h : ∀ x ∈ res, st.last_news_id < x) :
    st.last_news_id ≤ (save_sentiment_results st res).last_news_id := by
  cases res with
  | nil => exact le_refl _
  | cons i rest =>
    have hi : st.last_news_id < i := h i (List.mem_cons_self _ _)
    simp only [save_sentiment_results]
    exact le_trans (le_of_lt hi) (le_foldl_max rest i)

/-- C5: the persisted checkpoint `last_news_id` never decreases: every
single operation (batch run, pause flush, resume, terminate flush) leaves
it greater than or equal to its prior value, and hence so does every
sequence of operations within one process lifetime. -/
theorem checkpoint_monotone :
    (∀ (s : ProcState × Nat) (op : ProcOp),
      s.1.last_news_id ≤ (applyOp s op).1.last_news_id) ∧
    (∀ (ops : List ProcOp) (s : ProcState × Nat),
      s.1.last_news_id ≤ (runOps ops s).1.last_news_id) := by
  have hper : ∀ (s : ProcState × Nat) (op : ProcOp),
      s.1.last_news_id ≤ (applyOp s op).1.last_news_id := by
    intro s op
    cases op with
    | pauseFlush => exact le_refl _
    | resume => exact le_refl _
    | terminateFlush => exact le_refl _
    | runBatch scoreOk db =>
      show s.1.last_news_id ≤
        (save_sentiment_results s.1
          (process_news_batch scoreOk s.2
            (fetch_unprocessed_news db s.1)).1).last_news_id
      apply save_le
      intro x hx
      have hx' : x ∈ fetch_unprocessed_news db s.1 :=
        process_batch_subset scoreOk s.2 _ x hx
      exact (by simpa [fetch_unprocessed_news, List.mem_filter] using hx' :
        x ∈ db ∧ s.1.last_news_id < x).2
  refine ⟨hper, ?_⟩
  intro ops
  induction ops with
  | nil => intro s; exact le_refl _
  | cons op ops ih =>
    intro s
    exact le_trans (hper s op) (ih (applyOp s op))

/-- Counterexample for C2: with two fetched items where item 1 fails
scoring and item 2 succeeds, one run advances the checkpoint to 2 — past
the failed item 1 — and the next invocation fetches nothing, so item 1 is
never re-attempted. -/
theorem checkpoint_skips_failed_counterexample :
    (fun i => decide (i ≠ 1)) 1 = false ∧
    (runOnce (fun i => decide (i ≠ 1)) [1, 2] ⟨0⟩ 0).1.last_news_id = 2 ∧
    fetch_unprocessed_news [1, 2]
      (runOnce (fun i => decide (i ≠ 1)) [1, 2] ⟨0⟩ 0).1 = [] := by
  exact ⟨rfl, rfl, rfl⟩

/-- C2 (amended): over a strictly ascending fetch whose ids exceed both
cursors, the run's results are exactly the successfully scored items; the
persisted checkpoint becomes the highest successfully scored id (and is
untouched when nothing scored); and a failed item stays above the
checkpoint — hence is re-attempted on the next invocation — exactly when
no later item was successfully scored. -/
theorem checkpoint_highest_scored_amended (scoreOk : Nat → Bool)
    (st : ProcState) (aLast : Nat) (items : List Nat)
    (hsorted : items.Pairwise (· < ·))
    (ha : ∀ i ∈ items, aLast < i)
    (hcp : ∀ i ∈ items, st.last_news_id < i) :
    (process_news_batch scoreOk aLast items).1 = items.filter scoreOk ∧
    (items.filter scoreOk = [] →
      save_sentiment_results st (process_news_batch scoreOk aLast items).1 =
        st) ∧
    (items.filter scoreOk ≠ [] →
      (save_sentiment_results st
        (process_news_batch scoreOk aLast items).1).last_news_id ∈
          items.filter scoreOk ∧
      ∀ s ∈ items.filter scoreOk,
        s ≤ (save_sentiment_results st
          (process_news_batch scoreOk aLast items).1).last_news_id) ∧
    (∀ j ∈ items, scoreOk j = false →
      ((save_sentiment_results st
          (process_news_batch scoreOk aLast items).1).last_news_id < j ↔
        ∀ s ∈ items.filter scoreOk, s < j)) := by
  have hfil : (process_news_batch scoreOk aLast items).1 =
      items.filter scoreOk := process_batch_filter scoreOk items aLast hsorted ha
  refine ⟨hfil, ?_, ?_, ?_⟩
  · intro hnil
    rw [hfil, hnil]
    rfl
  · intro hne
    rw [hfil]
    rcases hf : items.filter scoreOk with _ | ⟨m, rest⟩
    · exact absurd hf hne
    · constructor
      · simp only [save_sentiment_results]
        rcases foldl_max_mem rest m with h | h
        · rw [h]; exact List.mem_cons_self _ _
        · exact List.mem_cons_of_mem _ h
      · intro s hs
        simp only [save_sentiment_results]
        rcases List.mem_cons.mp hs with rfl | hs
        · exact le_foldl_max rest s
        · exact mem_le_foldl_max rest m s hs
  · intro j hj hjf
    rw [hfil]
    rcases hf : items.filter scoreOk with _ | ⟨m, rest⟩
    · simp [save_sentiment_results, hcp j hj]
    · simp only [save_sentiment_results]
      rw [foldl_max_lt_iff, List.forall_mem_cons]

/-- Witness for C2 (amended): item 1 fails, item 2 succeeds; the results
are exactly the filter, and the failed item 1 is NOT above the new
checkpoint because the later item 2 was scored. -/
theorem checkpoint_highest_scored_amended_witness :
    (process_news_batch (fun i => decide (i ≠ 1)) 0 [1, 2]).1 =
      [1, 2].filter (fun i => decide (i ≠ 1)) ∧
    ¬ ((save_sentiment_results ⟨0⟩
        (process_news_batch (fun i => decide (i ≠ 1)) 0 [1, 2]).1).last_news_id
        < 1) := by
  have h := checkpoint_highest_scored_amended (fun i => decide (i ≠ 1)) ⟨0⟩ 0
    [1, 2] (by decide) (by decide) (by decide)
  refine ⟨h.1, fun hlt => ?_⟩
  have := (h.2.2.2 1 (by decide) (by decide)).mp hlt 2 (by decide)
  exact absurd this (by decide)

/-- The fixed role → entry-script table of `SystemMonitor.check_processes`
(system_monitor.py, lines 99-104), in source order. -/
def roleScripts : List (String × String) :=
  [("data_collector", "run_collector.py"),
   ("technical_analyzer", "run_technical_analysis.py"),
   ("signal_generator", "run_signal_generator.py"),
   ("notifier", "run_notifier.py")]

/-- Embeds `SystemMonitor.check_processes` (system_monitor.py, lines
90-125): for each expected role, one liveness boolean, computed from the
OS process table abstracted as `procRunning : script name → Bool`. -/
def check_processes (procRunning : String → Bool) : List (String × Bool) :=
  roleScripts.map (fun rs => (rs.1, procRunning rs.2))

/-- Embeds `SystemMonitor.check_and_restart_processes` (system_monitor.py,
lines 160-184) as the list of entry scripts for which a restart attempt is
issued: exactly the roles whose liveness boolean is false. -/
def check_and_restart_processes (procRunning : String → Bool) : List String :=
  roleScripts.filterMap
    (fun rs => if procRunning rs.2 then none else some rs.2)

/-- The liveness booleans of one `system_status` row, as written by
`SystemMonitor.save_status` (system_monitor.py, lines 186-233); resource
metrics omitted. -/
structure StatusSnapshot where
  data_collector_running : Bool
  technical_analyzer_running : Bool
  signal_generator_running : Bool
  notifier_running : Bool
deriving DecidableEq, Repr

/-- Embeds the liveness part of `SystemMonitor.save_status`: the inserted
row records the four booleans returned by the process check. -/
def save_status (procRunning : String → Bool) : StatusSnapshot :=
  { data_collector_running := procRunning "run_collector.py"
    technical_analyzer_running := procRunning "run_technical_analysis.py"
    signal_generator_running := procRunning "run_signal_generator.py"
    notifier_running := procRunning "run_notifier.py" }

/-- C9: in one supervisor poll, the number of restart attempts equals the
number of not-running roles; each of the four roles is restarted exactly
when its process is not running and appears at most once in the restart
list; and the status snapshot records all four liveness booleans exactly
as the process check returns them. -/
theorem supervisor_restarts_and_snapshot (procRunning : String → Bool) :
    (check_and_restart_processes procRunning).length =
      ((roleScripts.map Prod.snd).filter (fun s => !procRunning s)).length ∧
    ("run_collector.py" ∈ check_and_restart_processes procRunning ↔
      procRunning "run_collector.py" = false) ∧
    ("run_technical_analysis.py" ∈ check_and_restart_processes procRunning ↔
      procRunning "run_technical_analysis.py" = false) ∧
    ("run_signal_generator.py" ∈ check_and_restart_processes procRunning ↔
      procRunning "run_signal_generator.py" = false) ∧
    ("run_notifier.py" ∈ check_and_restart_processes procRunning ↔
      procRunning "run_notifier.py" = false) ∧
    (check_and_restart_processes procRunning).Nodup ∧
    save_status procRunning =
      { data_collector_running := procRunning "run_collector.py"
        technical_analyzer_running := procRunning "run_technical_analysis.py"
        signal_generator_running := procRunning "run_signal_generator.py"
        notifier_running := procRunning "run_notifier.py" } ∧
    (check_processes procRunning).map Prod.snd =
      [procRunning "run_collector.py", procRunning "run_technical_analysis.py",
       procRunning "run_signal_generator.py",
       procRunning "run_notifier.py"] := by
  cases h1 : procRunning "run_collector.py" <;>
    cases h2 : procRunning "run_technical_analysis.py" <;>
      cases h3 : procRunning "run_signal_generator.py" <;>
        cases h4 : procRunning "run_notifier.py" <;>
          simp [check_and_restart_processes, check_processes, save_status,
            roleScripts, h1, h2, h3, h4]

end DaxTracker
